import Mathlib

/-!
Verification development for the `mybot` agent execution engine
(`langgraph_agent.py` and the tool modules under `tools/`).

The Python source is shallowly embedded: pure fragments become Lean
functions, effectful fragments (HTTP fetches, subprocess calls, LLM
invocations, the asyncio event stream) are parameterised by explicit
outcome values, and the model output text is consumed as plain strings.
String scanning primitives (`startswith`, `in`, `strip`, `splitlines`)
are re-implemented over `List Char` so that every definition is
executable and kernel-reducible.
-/

namespace Mybot

/-! ## String scanning primitives (Python `startswith`, `in`, `strip`, `splitlines`) -/

/-- `isPrefixL p l` : the char list `p` is a prefix of `l`
(Python `str.startswith`). -/
def isPrefixL : List Char → List Char → Bool
  | [], _ => true
  | _ :: _, [] => false
  | c :: cs, d :: ds => (c == d) && isPrefixL cs ds

/-- `isSubL n h` : the char list `n` occurs inside `h`
(Python substring test `n in h`). -/
def isSubL : List Char → List Char → Bool
  | n, [] => isPrefixL n []
  | n, c :: t => isPrefixL n (c :: t) || isSubL n t

/-- Python `n in h` on strings. -/
def pyContains (h n : String) : Bool := isSubL n.data h.data

/-- ASCII whitespace recognised by the model of Python `str.strip`. -/
def isSpaceC (c : Char) : Bool := c == ' ' || c == '\t' || c == '\n' || c == '\r'

/-- Python `str.strip` on a char list: drop whitespace at both ends. -/
def stripL (l : List Char) : List Char :=
  ((l.dropWhile isSpaceC).reverse.dropWhile isSpaceC).reverse

/-- Helper for `pySplitlines`: split at newline characters, the
accumulator holds the current line reversed. -/
def splitAux : List Char → List Char → List (List Char)
  | [], acc => [acc.reverse]
  | '\n' :: rest, acc => acc.reverse :: splitAux rest []
  | c :: rest, acc => splitAux rest (c :: acc)

/-- Python `str.splitlines` (restricted to `\n` separators; a trailing
newline produces one extra empty line here, which never qualifies as an
action line, so every property below is unaffected). -/
def pySplitlines (s : String) : List (List Char) :=
  match s.data with
  | [] => []
  | l => splitAux l []

/-! ## Data model: Python values crossing the engine boundary

Tool implementations return either a plain string or a dict; the engine
inspects a dict only through its `"event"` / `"topic"` fields, which are
strings, so dict values are modelled as strings. -/

inductive PyVal
  | vstr (s : String)
  | vdict (fields : List (String × String))
deriving DecidableEq

/-- Python `str(r)` as applied by the engine to a tool result: a string
renders as itself; a dict renders brace-delimited (abbreviated repr —
the engine only tests whether the rendering starts with `"Error"`, and a
dict rendering starts with a brace). -/
def pyStr : PyVal → String
  | .vstr s => s
  | .vdict fs =>
      "\x7b" ++ String.intercalate ", "
        (fs.map (fun p => "\x27" ++ p.1 ++ "\x27: \x27" ++ p.2 ++ "\x27")) ++ "\x7d"

/-- Python literal constants accepted by the action grammar
(`ast.Constant`): string / number / boolean / None. -/
inductive PyConst
  | pstr (s : String)
  | pint (n : Int)
  | pbool (b : Bool)
  | pnone
deriving DecidableEq

/-- The fragment of the Python expression AST (`ast.parse(_, mode='eval')`)
relevant to action strings: literal constants, bare names, arithmetic
(`ast.BinOp`), calls, and attribute access. -/
inductive PyExpr
  | const (c : PyConst)
  | name (id : String)
  | binop (l r : PyExpr)
  | call (func : PyExpr) (args : List PyExpr) (kws : List (String × PyExpr))
  | attr (obj : PyExpr) (field : String)

/-- `ast.Constant` test (`isinstance(arg, ast.Constant)`). -/
def PyExpr.isConst : PyExpr → Bool
  | .const _ => true
  | _ => false

/-- Python `repr` of a constant, used inside `ast.dump` renderings. -/
def constRepr : PyConst → String
  | .pstr s => "\x27" ++ s ++ "\x27"
  | .pint n => toString n
  | .pbool b => if b then "True" else "False"
  | .pnone => "None"

/-- Abbreviated `ast.dump` rendering (the engine only embeds this text in
error messages and never inspects it). -/
def astDump : PyExpr → String
  | .const c => "Constant(value=" ++ constRepr c ++ ")"
  | .name i => "Name(id=\x27" ++ i ++ "\x27)"
  | .binop _ _ => "BinOp(...)"
  | .call _ _ _ => "Call(...)"
  | .attr _ _ => "Attribute(...)"

/-- `str(AttributeError)` raised by `tree.body.func.id` when the callee
is not a bare name. -/
def attrErrMsg (f : PyExpr) : String :=
  (match f with
    | .const _ => "\x27Constant\x27"
    | .name _ => "\x27Name\x27"
    | .binop _ _ => "\x27BinOp\x27"
    | .call _ _ _ => "\x27Call\x27"
    | .attr _ _ => "\x27Attribute\x27") ++ " object has no attribute \x27id\x27"

/-! ## Action Parser (`act_node` step 1, `langgraph_agent.py` lines 86–123) -/

/-- The positional-argument loop: collect `ast.Constant` values in order,
stopping at the first non-literal argument (which Python raises on). -/
def extractArgs : List PyExpr → Except PyExpr (List PyConst)
  | [] => .ok []
  | .const c :: rest => (extractArgs rest).map (fun l => c :: l)
  | a :: _ => .error a

/-- The keyword-argument loop, same discipline. -/
def extractKws : List (String × PyExpr) → Except (String × PyExpr) (List (String × PyConst))
  | [] => .ok []
  | (k, .const c) :: rest => (extractKws rest).map (fun l => (k, c) :: l)
  | kv :: _ => .error kv

/-- A parsed action dict as built by `act_node`: either the structured
`{name, args, kwargs, original}` record or the `{name: "error", error,
original}` record produced when parsing raises.  The `original` field
holds the action source, represented by its parsed AST. -/
inductive ParsedAction
  | ok (name : String) (args : List PyConst) (kwargs : List (String × PyConst))
      (original : PyExpr)
  | err (msg : String) (original : PyExpr)

def ParsedAction.isErr : ParsedAction → Bool
  | .err _ _ => true
  | _ => false

/-- `act_node`'s per-line parse of one action string (given as its AST;
`ast.parse` itself is the CPython parser).  Mirrors lines 93–123:
a non-call raises `ValueError("Action must be a pure function call")`,
`tree.body.func.id` raises `AttributeError` off a non-name callee, and
each non-literal argument raises `ValueError(...)`; every exception is
caught and recorded as `"Parse error: " + str(e)`. -/
def parseAction (tree : PyExpr) : ParsedAction :=
  match tree with
  | .call f args kws =>
    match f with
    | .name fn =>
      match extractArgs args with
      | .error a => .err ("Parse error: Argument " ++ astDump a ++ " is not a literal") tree
      | .ok pos =>
        match extractKws kws with
        | .error kv => .err ("Parse error: Keyword " ++ kv.1 ++ " is not a literal") tree
        | .ok ks => .ok fn pos ks tree
    | _ => .err ("Parse error: " ++ attrErrMsg f) tree
  | _ => .err "Parse error: Action must be a pure function call" tree

/-! ## Tool execution (`safe_execute_tool`, lines 271–314) -/

/-- A tool implementation: applied to positional and keyword arguments it
either returns a value or raises (modelled as `Except.error` carrying
`str(e)`). -/
def ToolImpl := List PyConst → List (String × PyConst) → Except String PyVal

/-- The tool registry (`TOOLS = get_tools_dict()`): name → implementation. -/
def ToolRegistry := String → Option ToolImpl

/-- `safe_execute_tool(action_str, available_tools)` on an already-parsed
action string (the `SyntaxError` branch is unreachable for input that
parsed once in `act_node`).  The `AttributeError` from `.func.id` and any
exception raised inside the tool fall into the generic handler returning
`"Tool Execution Error: " + str(e)`. -/
def safeExecuteTool (tree : PyExpr) (tools : ToolRegistry) : PyVal :=
  match tree with
  | .call f args kws =>
    match f with
    | .name fn =>
      match tools fn with
      | none => .vstr ("Error: Tool \x27" ++ fn ++ "\x27 does not exist. Did you hallucinate it?")
      | some impl =>
        match extractArgs args with
        | .error a => .vstr ("Error: Argument " ++ astDump a ++ " is not a literal.")
        | .ok pos =>
          match extractKws kws with
          | .error kv => .vstr ("Error: Keyword " ++ kv.1 ++ " is not a literal.")
          | .ok ks =>
            match impl pos ks with
            | .ok v => v
            | .error e => .vstr ("Tool Execution Error: " ++ e)
    | _ => .vstr ("Tool Execution Error: " ++ attrErrMsg f)
  | _ => .vstr "Error: Your action must be a pure function call. Do not add conversational text."

/-- `timed_tool_call(act)` inside `act_node` (lines 139–158): an action
dict carrying an `error` key returns that error string without invoking
anything; otherwise the original action string is handed to
`safe_execute_tool` (which never raises, so the wrapping
`except` is unreachable). -/
def timedToolCall (tools : ToolRegistry) (act : ParsedAction) : PyVal :=
  match act with
  | .err msg _ => .vstr msg
  | .ok _ _ _ orig => safeExecuteTool orig tools

/-- `results = await asyncio.gather(*tasks)` (line 162): one task per
action, created in list order; `gather` returns results positionally in
task-creation order, independent of completion order. -/
def dispatch (tools : ToolRegistry) (acts : List ParsedAction) : List PyVal :=
  acts.map (timedToolCall tools)

/-- Status classification of one result (line 167):
`"ok" if not str(res).startswith("Error") else "error"`. -/
def statusOf (r : PyVal) : String :=
  if isPrefixL "Error".data (pyStr r).data then "error" else "ok"

/-- One entry of `batch_results` (lines 165–172): the full structured
action, the sniffed status, and the raw result. -/
structure BatchResult where
  action : ParsedAction
  status : String
  result : PyVal

/-- `batch_results` (lines 165–172): pair result `i` with action `i`. -/
def mkBatchResults (acts : List ParsedAction) (results : List PyVal) : List BatchResult :=
  List.zipWith (fun a r => ⟨a, statusOf r, r⟩) acts results

/-- A `ToolMessage` as built on line 181: stringified result content plus
a freshly generated `tool_call_id`. -/
structure ToolMsg where
  content : String
  tool_call_id : String
deriving DecidableEq

/-- `new_messages` (line 181): one `ToolMessage` per result, in result
order, with `tool_call_id = "call_" + uuid4().hex[:8]`.  The uuid
generator is modelled as a supply `sup : Nat → String` indexed by
generation order (= list position). -/
def newMessages (results : List PyVal) (sup : Nat → String) : List ToolMsg :=
  results.enum.map (fun p => ⟨pyStr p.2, "call_" ++ sup p.1⟩)

/-- `isinstance(r, dict) and r.get("event") == "TOPIC_CHANGE"` (line 186). -/
def isTopicChange (r : PyVal) : Bool :=
  match r with
  | .vdict fs =>
    match fs.lookup "event" with
    | some v => v == "TOPIC_CHANGE"
    | none => false
  | .vstr _ => false

/-- The signal scan of lines 184–188: first matching result wins within
the batch (`break`). -/
def findTopicSignal (results : List PyVal) : Option PyVal :=
  results.find? isTopicChange

/-- The state update returned by `act_node` (lines 190–197).  The Python
dict carries a `final_signal` key only when a signal was found; the
`Option` models key presence. -/
structure ActUpdate where
  messages : List ToolMsg
  current_thought : String
  final_signal : Option PyVal
deriving DecidableEq

/-- `act_node` on an already-parsed batch: dispatch, build the tool
messages, and latch the first in-batch topic-change signal. -/
def actUpdate (tools : ToolRegistry) (acts : List ParsedAction) (sup : Nat → String) :
    ActUpdate :=
  let rs := dispatch tools acts
  ⟨newMessages rs sup, "Tools complete.", findTopicSignal rs⟩

/-! ## Orchestrator: `should_continue`, the graph, and `run_agent_logic` -/

/-- `should_continue` (lines 236–248): scan the last message line by
line; any line whose stripped form starts with `"Action:"` routes to
`"act"`, otherwise `"end"`. -/
def shouldContinue (text : String) : String :=
  if (pySplitlines text).any (fun l => isPrefixL "Action:".data (stripL l)) then "act"
  else "end"

/-- The compiled `StateGraph` (lines 250–266): nodes, plain edges,
conditional edges (source, branch-label → target list), entry point. -/
structure AgentGraph where
  nodes : List String
  edges : List (String × String)
  condEdges : List (String × List (String × String))
  entry : String

/-- LangGraph's terminal pseudo-node `END`. -/
def endNode : String := "__end__"

/-- The graph built at lines 250–266: nodes `reason` and `act`; a
conditional edge from `reason` via `should_continue` to `act` or `END`;
a plain edge `act → reason`; entry point `reason`. -/
def workflow : AgentGraph :=
  ⟨["reason", "act"],
   [("act", "reason")],
   [("reason", [("act", "act"), ("end", endNode)])],
   "reason"⟩

/-- All targets reachable from node `n` in one transition (plain edges
first, then conditional-edge targets). -/
def successors (g : AgentGraph) (n : String) : List String :=
  ((g.edges.filter (fun e => e.1 == n)).map (fun e => e.2)) ++
    ((g.condEdges.filter (fun e => e.1 == n)).flatMap (fun e => e.2.map (fun b => b.2)))

/-- One event of `app.astream`: a node name with the state update that
node returned.  Only the two fields `run_agent_logic` reads are kept. -/
inductive AgentEvent
  | reasonEv (thought : String)
  | actEv (update : ActUpdate)
deriving DecidableEq

/-- The value `run_agent_logic` returns (lines 231–234). -/
structure RunResult where
  response : String
  topic_change : Option PyVal
deriving DecidableEq

/-- The body of `run_agent_logic`'s event loop (lines 217–229): a reason
event whose thought contains the substring `"Action:"` anywhere only
logs; otherwise the thought becomes the final response.  An act event
carrying a `final_signal` whose `event` field is `"TOPIC_CHANGE"`
reassigns the latched signal. -/
def stepEvent (acc : RunResult) (e : AgentEvent) : RunResult :=
  match e with
  | .reasonEv thought =>
    if pyContains thought "Action:" then acc else { acc with response := thought }
  | .actEv u =>
    match u.final_signal with
    | some s => if isTopicChange s then { acc with topic_change := some s } else acc
    | none => acc

/-- Fold `run_agent_logic`'s loop over the whole event stream, starting
from `final_response = ""` and no latched signal. -/
def processEvents (es : List AgentEvent) : RunResult :=
  es.foldl stepEvent ⟨"", none⟩

/-- The event stream one invocation produces: each entry of `thoughts`
is the model's output for one REASON step (the list length stands in for
the `recursion_limit` fuel); `actsOf` is the parse of a thought's action
lines (the CPython-parser half of `act_node` step 1).  A reason step
routed to `"act"` is followed by the act node's update and the loop
continues; a step routed to `"end"` terminates the stream. -/
def runLoop (tools : ToolRegistry) (sup : Nat → String)
    (actsOf : String → List ParsedAction) : List String → List AgentEvent
  | [] => []
  | t :: rest =>
    if shouldContinue t = "act" then
      .reasonEv t :: .actEv (actUpdate tools (actsOf t) sup) :: runLoop tools sup actsOf rest
    else [.reasonEv t]

/-- `run_agent_logic`: stream the graph and fold the events. -/
def runAgentLogic (tools : ToolRegistry) (sup : Nat → String)
    (actsOf : String → List ParsedAction) (thoughts : List String) : RunResult :=
  processEvents (runLoop tools sup actsOf thoughts)

/-! ## History Reducer (`AgentState.messages`, lines 14–20)

The `messages` field is annotated with `operator.add`: the channel
reducer is plain list concatenation. -/

/-- A chat message with its identifier. -/
structure ChatMessage where
  id : String
  content : String
deriving DecidableEq

/-- The `messages` channel reducer declared by
`Annotated[List[BaseMessage], operator.add]`: list concatenation. -/
def addMessages (existing incoming : List ChatMessage) : List ChatMessage :=
  existing ++ incoming

/-! ## ACT-phase concurrency (lines 135–162)

`act_node` creates one task per action and awaits `asyncio.gather` over
all of them; there is no semaphore or engine-level bound, so nothing
guards how many tool invocations run at once (the tools run via
`loop.run_in_executor` on the runtime's default thread pool, whose size
is a runtime parameter, not a configured limit).  The scheduling is
modelled as an interleaving relation over counts of created-but-idle,
in-flight, and finished tasks: starting a pending task is always
enabled, finishing an in-flight task is always enabled. -/

structure DispatchState where
  pending : Nat
  running : Nat
  done : Nat
deriving DecidableEq

inductive DispatchStep : DispatchState → DispatchState → Prop
  | start (p r d : Nat) : DispatchStep ⟨p + 1, r, d⟩ ⟨p, r + 1, d⟩
  | finish (p r d : Nat) : DispatchStep ⟨p, r + 1, d⟩ ⟨p, r, d + 1⟩

/-- Reachability of one scheduler state from another. -/
def DispatchReach : DispatchState → DispatchState → Prop :=
  Relation.ReflTransGen DispatchStep

/-- The state right after `act_node` has created one task per action of
an `n`-action batch and none has started. -/
def initBatch (n : Nat) : DispatchState := ⟨n, 0, 0⟩

/-! ## `tools/scrape.py` (`scrape_url`) -/

/-- Outcome of `requests.get(url, ...)`: a response with status code and
body text, or one of the exception classes the function handles. -/
inductive FetchOutcome
  | success (code : Nat) (body : String)
  | timeout
  | connError
  | exc (msg : String)

/-- The dict stored into `result["result"]` (either the extracted-text
payload or the no-text error payload). -/
structure ScrapeDoc where
  url : String
  error : Option String
  summary : String
  citation : String
deriving DecidableEq

/-- The intermediate `result` dict mutated throughout `scrape_url`
(`result["result"]` starts as the empty string, modelled `none`). -/
structure ScrapeState where
  status : String
  code : Nat
  message : String
  result : Option ScrapeDoc
deriving DecidableEq

/-- The dict `scrape_url` returns (`final_result`, lines 59–65). -/
structure ScrapeResult where
  url : String
  error : String
  summary : String
  citation : String
deriving DecidableEq

/-- The CAPTCHA sentinel scanned for in a 200 response body. -/
def captchaSentinel : String := "Please complete the security check"

/-- The `try`/`except` body of `scrape_url` building the intermediate
`result` dict.  `extract` stands for
`trafilatura.extract(response.text, ...)` (`none` = no extractable
text). -/
def scrapeIntermediate (fetch : FetchOutcome) (extract : String → Option String)
    (url : String) : ScrapeState :=
  match fetch with
  | .success code body =>
    if code = 200 then
      if pyContains body captchaSentinel then
        ⟨"error", code, "Blocked by CAPTCHA/Cloudflare.", none⟩
      else
        match extract body with
        | some text =>
          ⟨"ok", code, "Extracted and summarized text from page",
           some ⟨url, none, text, "[" ++ url ++ "](" ++ url ++ ")"⟩⟩
        | none =>
          ⟨"error", code, "No extractable text found.",
           some ⟨url, some "No extractable text found.",
                 "Failed to scrape " ++ url ++ ": No extractable text found.",
                 "[" ++ url ++ "](" ++ url ++ ")"⟩⟩
    else ⟨"error", code, "HTTP Error: " ++ toString code, none⟩
  | .timeout => ⟨"error", 0, "Request timed out.", none⟩
  | .connError => ⟨"error", 0, "Connection/DNS failure.", none⟩
  | .exc m => ⟨"error", 0, "Exception: " ++ m, none⟩

/-- `scrape_url(url)`: after the `try`/`except`, the function
unconditionally builds `final_result` from `result["message"]` and
returns it — the intermediate `result` (including any extracted text in
`result["result"]`) is dropped. -/
def scrape_url (fetch : FetchOutcome) (extract : String → Option String)
    (url : String) : ScrapeResult :=
  let r := scrapeIntermediate fetch extract url
  ⟨url, r.message, "Failed to scrape " ++ url ++ ": " ++ r.message,
   "[" ++ url ++ "](" ++ url ++ ")"⟩

/-! ## `tools/ipmi.py` (`check_temps`) -/

/-- The local `result` dict of `check_temps`. -/
structure IpmiState where
  status : String
  code : Nat
  message : String
  result : String
deriving DecidableEq

/-- The mutations the `try`/`except` block applies to the local `result`
dict when `host == "local"`; `outcome` stands for
`subprocess.check_output(cmd).decode()` (`Except.error` = any raised
exception, carrying `str(e)`). -/
def checkTempsLocalState (outcome : Except String String) : IpmiState :=
  match outcome with
  | .ok output => ⟨"ok", 0, "Checked temperatures", output⟩
  | .error e => ⟨"error", 0, "IPMI Error (is ipmitool installed?): " ++ e, ""⟩

/-- `check_temps(host)`: a non-`"local"` host returns the
remote-not-configured string early; the `"local"` path mutates the local
`result` dict and then falls off the end of the function, so Python
returns `None` (`none`). -/
def check_temps (host : String) (outcome : Except String String) : Option String :=
  if host ≠ "local" then
    some "Remote IPMI not configured in python yet. Use run_remote_cmd instead."
  else
    let _r := checkTempsLocalState outcome
    none

/-! ## Concrete fixtures used by witnesses and counterexamples -/

/-- The empty tool registry. -/
def reg0 : ToolRegistry := fun _ => none

/-- A trivial parse oracle returning no actions. -/
def acts0 : String → List ParsedAction := fun _ => []

/-- A deterministic uuid supply. -/
def sup0 : Nat → String := fun i => toString i

/-- `tools/topic.py`'s `signal_topic_change(subject)`: returns the
structured `TOPIC_CHANGE` dict; a wrong argument shape raises
`TypeError` before the body runs. -/
def topicImpl : ToolImpl := fun args kws =>
  match args, kws with
  | [.pstr s], [] =>
    .ok (.vdict [("status", "ok"), ("event", "TOPIC_CHANGE"), ("topic", s)])
  | _, _ => .error "TypeError: signal_topic_change() argument mismatch"

/-- A registry exposing only the topic tool. -/
def topicReg : ToolRegistry := fun n => if n = "topic" then some topicImpl else none

def topicCallA : PyExpr := .call (.name "topic") [.const (.pstr "Server Disk Space")] []

def topicCallB : PyExpr := .call (.name "topic") [.const (.pstr "Gardening")] []

def sigA : PyVal := .vdict [("status", "ok"), ("event", "TOPIC_CHANGE"), ("topic", "Server Disk Space")]

def sigB : PyVal := .vdict [("status", "ok"), ("event", "TOPIC_CHANGE"), ("topic", "Gardening")]

/-- The event stream of an invocation whose two ACT batches each raise a
topic-change signal, followed by a final reasoning step. -/
def twoBatchEvents : List AgentEvent :=
  [.reasonEv "Action: topic(\x27Server Disk Space\x27)",
   .actEv (actUpdate topicReg [parseAction topicCallA] sup0),
   .reasonEv "Action: topic(\x27Gardening\x27)",
   .actEv (actUpdate topicReg [parseAction topicCallB] sup0),
   .reasonEv "All done."]

/-- A duplicated message for the reducer counterexample. -/
def dupMsg : ChatMessage := ⟨"m1", "hello"⟩

/-- A thought with the action marker mid-line (not at line start). -/
def midActionText : String := "I will not output an Action: line now"

def goodImpl : ToolImpl := fun _ _ => .ok (.vstr "fine")

/-- A tool whose implementation raises. -/
def badImpl : ToolImpl := fun _ _ => .error "boom"

def reg5 : ToolRegistry := fun n =>
  if n = "good" then some goodImpl else if n = "bad" then some badImpl else none

def goodCall : PyExpr := .call (.name "good") [] []

def regFG : ToolRegistry := fun n =>
  if n = "f" then some (fun _ _ => .ok (.vstr "r1"))
  else if n = "g" then some (fun _ _ => .ok (.vstr "r2")) else none

def actF : ParsedAction := parseAction (.call (.name "f") [] [])

def actG : ParsedAction := parseAction (.call (.name "g") [] [])

/-! ## Helper lemmas -/

/-- A literal-only positional argument list is extracted verbatim. -/
lemma extractArgs_map_const (args : List PyConst) :
    extractArgs (args.map .const) = .ok args := by
  induction args with
  | nil => rfl
  | cons a l ih => simp [extractArgs, ih, Except.map]

/-- A literal-only keyword argument list is extracted verbatim. -/
lemma extractKws_map_const (kws : List (String × PyConst)) :
    extractKws (kws.map (fun p => (p.1, .const p.2))) = .ok kws := by
  induction kws with
  | nil => rfl
  | cons a l ih =>
    obtain ⟨k, c⟩ := a
    simp [extractKws, ih, Except.map]

/-- The call AST a literal-only action string parses to. -/
def mkCallTree (fn : String) (args : List PyConst) (kws : List (String × PyConst)) : PyExpr :=
  .call (.name fn) (args.map .const) (kws.map (fun p => (p.1, .const p.2)))

/-- An exception inside a registered tool is caught by
`safe_execute_tool` and converted to the `Tool Execution Error` string. -/
lemma safeExecuteTool_raises (tools : ToolRegistry) (fn : String)
    (args : List PyConst) (kws : List (String × PyConst)) (impl : ToolImpl) (e : String)
    (ht : tools fn = some impl) (he : impl args kws = .error e) :
    safeExecuteTool (mkCallTree fn args kws) tools
      = .vstr ("Tool Execution Error: " ++ e) := by
  simp [safeExecuteTool, mkCallTree, ht, extractArgs_map_const, extractKws_map_const, he]

/-- `"Tool Execution Error: …"` does not start with `"Error"`, so the
status sniff of line 167 classifies it `"ok"`. -/
lemma statusOf_toolExecError (e : String) :
    statusOf (.vstr ("Tool Execution Error: " ++ e)) = "ok" := rfl

/-- An argument list containing a non-literal makes the extraction loop
raise. -/
lemma extractArgs_error_of_nonconst (args : List PyExpr)
    (h : ∃ a ∈ args, a.isConst = false) : ∃ b, extractArgs args = .error b := by
  induction args with
  | nil => simp at h
  | cons a l ih =>
    match a with
    | .const c =>
      obtain ⟨b, hb, hbc⟩ := h
      rcases List.mem_cons.mp hb with h1 | h1
      · subst h1; simp [PyExpr.isConst] at hbc
      · obtain ⟨b2, hb2⟩ := ih ⟨b, h1, hbc⟩
        exact ⟨b2, by simp [extractArgs, hb2, Except.map]⟩
    | .name i => exact ⟨.name i, rfl⟩
    | .binop x y => exact ⟨.binop x y, rfl⟩
    | .call f as ks => exact ⟨.call f as ks, rfl⟩
    | .attr o f => exact ⟨.attr o f, rfl⟩

/-- A keyword argument list containing a non-literal value makes the
keyword extraction loop raise. -/
lemma extractKws_error_of_nonconst (kws : List (String × PyExpr))
    (h : ∃ kv ∈ kws, kv.2.isConst = false) : ∃ b, extractKws kws = .error b := by
  induction kws with
  | nil => simp at h
  | cons a l ih =>
    obtain ⟨k, v⟩ := a
    match v with
    | .const c =>
      obtain ⟨b, hb, hbc⟩ := h
      rcases List.mem_cons.mp hb with h1 | h1
      · subst h1; simp [PyExpr.isConst] at hbc
      · obtain ⟨b2, hb2⟩ := ih ⟨b, h1, hbc⟩
        exact ⟨b2, by simp [extractKws, hb2, Except.map]⟩
    | .name i => exact ⟨(k, .name i), rfl⟩
    | .binop x y => exact ⟨(k, .binop x y), rfl⟩
    | .call f as ks => exact ⟨(k, .call f as ks), rfl⟩
    | .attr o f => exact ⟨(k, .attr o f), rfl⟩

/-- `mkBatchResults` over a dispatched batch, in closed form. -/
lemma mkBatchResults_dispatch (tools : ToolRegistry) (acts : List ParsedAction) :
    mkBatchResults acts (dispatch tools acts)
      = acts.map (fun a => ⟨a, statusOf (timedToolCall tools a), timedToolCall tools a⟩) := by
  induction acts with
  | nil => rfl
  | cons a l ih => simp [mkBatchResults, dispatch, List.zipWith] at ih ⊢; exact ih

/-- With starts unguarded, every created task of a batch can be brought
in flight before any finishes. -/
lemma reach_start_all (p r d : Nat) : DispatchReach ⟨p, r, d⟩ ⟨0, p + r, d⟩ := by
  induction p generalizing r with
  | zero => simpa using Relation.ReflTransGen.refl
  | succ p ih =>
    have h1 : DispatchStep ⟨p + 1, r, d⟩ ⟨p, r + 1, d⟩ := DispatchStep.start p r d
    have h2 := ih (r + 1)
    have h3 : p + (r + 1) = p + 1 + r := by omega
    exact Relation.ReflTransGen.head h1 (h3 ▸ h2)

/-! ## Claim theorems -/

/-- Claim C1, counterexample: the compiled graph wires ACT directly back
to REASON and has no FOLD node at all, refuting "ACT always transitions
to a FOLD phase … ACT never transitions directly to REASON". -/
theorem workflow_claim_fold_ce :
    ("act", "reason") ∈ workflow.edges ∧ "fold" ∉ workflow.nodes := by decide

/-- Claim C1 (amended): in every cycle the ACT phase transitions
directly back to REASON — its only successor is the reason node; the
graph has exactly the nodes `reason` and `act` (no FOLD phase and no
context compactor exist), REASON branches to ACT or END, and the entry
point is REASON. -/
theorem workflow_act_transitions_directly_to_reason :
    successors workflow "act" = ["reason"] ∧
    workflow.nodes = ["reason", "act"] ∧
    "fold" ∉ workflow.nodes ∧
    successors workflow "reason" = ["act", endNode] ∧
    workflow.entry = "reason" := by decide

/-- Claim C2, counterexample: the `messages` reducer is `operator.add`;
reducing a message whose identifier is already present appends a second
copy instead of overwriting in place, so reducing the same message twice
does not leave the history unchanged. -/
theorem addMessages_upsert_ce :
    addMessages [dupMsg] [dupMsg] = [dupMsg, dupMsg] ∧
    addMessages [dupMsg] [dupMsg] ≠ [dupMsg] := by decide

/-- Claim C2 (amended): the history reducer is plain concatenation — it
always appends every incoming message regardless of identifier (so
reducing a message with a new identifier appends, but reducing an
existing identifier also appends a duplicate rather than overwriting);
existing entries keep their positions. -/
theorem addMessages_always_appends (existing incoming : List ChatMessage) :
    addMessages existing incoming = existing ++ incoming ∧
    (addMessages existing incoming).length = existing.length + incoming.length ∧
    (addMessages existing incoming).take existing.length = existing := by
  refine ⟨rfl, by simp [addMessages], ?_⟩
  simp [addMessages, List.take_left]

/-- Claim C3, counterexample: in an invocation whose two batches each
produce a topic-change signal, `run_agent_logic` reports the second
batch's signal — a later signal in the same run overrides the earlier
latched one, refuting first-wins across the invocation. -/
theorem topic_signal_override_ce :
    (actUpdate topicReg [parseAction topicCallA] sup0).final_signal = some sigA ∧
    (processEvents twoBatchEvents).topic_change = some sigB ∧
    sigB ≠ sigA := by decide

/-- Claim C3 (amended): within one ACT batch the first topic-change
result is the batch's signal, and every result of the batch — the signal
included — is still delivered to the model as a tool message; but across
batches of the same invocation the latest batch's signal overwrites the
previously latched one (last-wins), rather than the first being latched
for the whole invocation. -/
theorem topic_signal_first_in_batch_last_across_events :
    (∀ (r : PyVal) (rs : List PyVal), isTopicChange r = true →
      findTopicSignal (r :: rs) = some r) ∧
    (∀ (rs : List PyVal) (sup : Nat → String),
      (newMessages rs sup).length = rs.length) ∧
    (∀ (es : List AgentEvent) (u : ActUpdate) (s : PyVal),
      u.final_signal = some s → isTopicChange s = true →
      (processEvents (es ++ [.actEv u])).topic_change = some s) := by
  refine ⟨fun r rs h => ?_, fun rs sup => ?_, fun es u s h1 h2 => ?_⟩
  · simp [findTopicSignal, List.find?, h]
  · simp [newMessages]
  · simp [processEvents, List.foldl_append, stepEvent, h1, h2]

/-- Claim C3, witness for the amended theorem at concrete inputs. -/
theorem topic_signal_first_in_batch_last_across_events_witness :
    findTopicSignal [sigA] = some sigA ∧
    (newMessages [sigA] sup0).length = 1 ∧
    (processEvents ([.reasonEv "hi"] ++ [.actEv ⟨[], "Tools complete.", some sigB⟩])).topic_change
      = some sigB := by
  have h := topic_signal_first_in_batch_last_across_events
  exact ⟨h.1 sigA [] (by decide), h.2.1 [sigA] sup0,
    h.2.2 [.reasonEv "hi"] ⟨[], "Tools complete.", some sigB⟩ sigB rfl (by decide)⟩

/-- Claim C4, counterexample: a reasoning text with the marker only
mid-line (`should_continue` routes to END, so zero qualifying action
lines) is nevertheless not returned as the final response, because
`run_agent_logic` tests `"Action:" in thought` as a substring: the
invocation ends with an empty response instead of the text. -/
theorem no_action_line_response_ce :
    shouldContinue midActionText = "end" ∧
    pyContains midActionText "Action:" = true ∧
    (runAgentLogic reg0 sup0 acts0 [midActionText]).response = "" ∧
    midActionText ≠ "" := by decide

/-- Claim C4 (amended): a REASON output with zero qualifying action
lines ends the invocation after that single REASON phase — the event
stream is one reason event, with no ACT executed (and no FOLD exists) —
and the topic change is null; the output text is returned as the final
response provided it also does not contain `"Action:"` as a substring
anywhere (if the marker occurs mid-line, the final response is left
empty instead). -/
theorem no_action_line_single_reason (tools : ToolRegistry) (sup : Nat → String)
    (actsOf : String → List ParsedAction) (t : String)
    (h : shouldContinue t = "end") :
    runLoop tools sup actsOf [t] = [.reasonEv t] ∧
    (runAgentLogic tools sup actsOf [t]).topic_change = none ∧
    (pyContains t "Action:" = false → runAgentLogic tools sup actsOf [t] = ⟨t, none⟩) := by
  have hne : ¬ shouldContinue t = "act" := by rw [h]; decide
  have hloop : runLoop tools sup actsOf [t] = [.reasonEv t] := by
    simp [runLoop, hne]
  refine ⟨hloop, ?_, fun hc => ?_⟩
  · rw [runAgentLogic, hloop]
    simp only [processEvents, List.foldl_cons, List.foldl_nil, stepEvent]
    split <;> rfl
  · rw [runAgentLogic, hloop]
    simp [processEvents, stepEvent, hc]

/-- Claim C4, witness: the spec's own scenario — the model answers `"4"`
with no action line; one REASON phase, response `"4"`, null topic
change. -/
theorem no_action_line_single_reason_witness :
    runLoop reg0 sup0 acts0 ["4"] = [.reasonEv "4"] ∧
    runAgentLogic reg0 sup0 acts0 ["4"] = ⟨"4", none⟩ := by
  have h := no_action_line_single_reason reg0 sup0 acts0 "4" (by decide)
  exact ⟨h.1, h.2.2 (by decide)⟩

/-- Claim C5, counterexample: a 2-action batch where exactly one tool
raises still yields 2 results, but the raising action's result is
classified `"ok"`, not `"error"` — its text `"Tool Execution Error:
boom"` does not start with `"Error"`, which is the only thing the status
sniff checks — so 0 of the 2 results carry status `"error"`, refuting
"N−1 ok and one error". -/
theorem dispatch_exception_status_ce :
    dispatch reg5 [parseAction goodCall, ParsedAction.ok "bad" [] [] (mkCallTree "bad" [] [])]
      = [.vstr "fine", .vstr "Tool Execution Error: boom"] ∧
    (mkBatchResults [parseAction goodCall, ParsedAction.ok "bad" [] [] (mkCallTree "bad" [] [])]
        (dispatch reg5 [parseAction goodCall, ParsedAction.ok "bad" [] [] (mkCallTree "bad" [] [])])).map
        (fun b => b.status) = ["ok", "ok"] := by decide

/-- Claim C5 (amended): for a batch in which exactly one action's tool
implementation raises, the dispatcher still returns one result per
action and the siblings are executed unaffected; the raising action's
exception is caught and converted to the string result
`"Tool Execution Error: <message>"` — but that result's status is
computed as `"ok"`, not `"error"`, because a result is marked `"error"`
only when its string starts with `"Error"`. -/
theorem dispatch_exception_isolated (tools : ToolRegistry)
    (pre post : List ParsedAction) (fn : String) (args : List PyConst)
    (kws : List (String × PyConst)) (impl : ToolImpl) (e : String)
    (ht : tools fn = some impl) (he : impl args kws = .error e) :
    dispatch tools (pre ++ ParsedAction.ok fn args kws (mkCallTree fn args kws) :: post)
      = dispatch tools pre ++ .vstr ("Tool Execution Error: " ++ e) :: dispatch tools post ∧
    (dispatch tools (pre ++ ParsedAction.ok fn args kws (mkCallTree fn args kws) :: post)).length
      = pre.length + 1 + post.length ∧
    statusOf (.vstr ("Tool Execution Error: " ++ e)) = "ok" := by
  have hbad : timedToolCall tools (ParsedAction.ok fn args kws (mkCallTree fn args kws))
      = .vstr ("Tool Execution Error: " ++ e) := by
    simp [timedToolCall, safeExecuteTool_raises tools fn args kws impl e ht he]
  refine ⟨?_, ?_, statusOf_toolExecError e⟩
  · simp [dispatch, hbad]
  · simp [dispatch]
    omega

/-- Claim C5, witness: the amended theorem at a concrete 2-action batch
(one healthy tool, one raising tool). -/
theorem dispatch_exception_isolated_witness :
    dispatch reg5 ([parseAction goodCall] ++ ParsedAction.ok "bad" [] [] (mkCallTree "bad" [] []) :: [])
      = dispatch reg5 [parseAction goodCall] ++ .vstr ("Tool Execution Error: " ++ "boom") :: dispatch reg5 [] ∧
    (dispatch reg5 ([parseAction goodCall] ++ ParsedAction.ok "bad" [] [] (mkCallTree "bad" [] []) :: [])).length
      = 2 ∧
    statusOf (.vstr ("Tool Execution Error: " ++ "boom")) = "ok" := by
  have h := dispatch_exception_isolated reg5 [parseAction goodCall] [] "bad" [] [] badImpl "boom" rfl rfl
  exact ⟨h.1, h.2.1, h.2.2⟩

/-- Claim C6: an action whose argument list contains a non-literal
value — whether among the positional arguments or as a keyword value
(e.g. a bare name, arithmetic, or a nested call) — parses to an error
record, and the named tool is never invoked: the outcome of the ACT
step for that action is identical under any two tool registries
whatsoever, so no registry entry can have been called. -/
theorem nonliteral_arg_rejected_never_invoked (fn : String) (args : List PyExpr)
    (kws : List (String × PyExpr))
    (h : (∃ a ∈ args, a.isConst = false) ∨ (∃ kv ∈ kws, kv.2.isConst = false)) :
    (parseAction (.call (.name fn) args kws)).isErr = true ∧
    ∀ t1 t2 : ToolRegistry,
      timedToolCall t1 (parseAction (.call (.name fn) args kws))
        = timedToolCall t2 (parseAction (.call (.name fn) args kws)) := by
  rcases h with h | h
  · obtain ⟨b, hb⟩ := extractArgs_error_of_nonconst args h
    exact ⟨by simp [parseAction, hb, ParsedAction.isErr],
           fun t1 t2 => by simp [parseAction, hb, timedToolCall]⟩
  · obtain ⟨b, hb⟩ := extractKws_error_of_nonconst kws h
    cases hargs : extractArgs args with
    | error a =>
      exact ⟨by simp [parseAction, hargs, ParsedAction.isErr],
             fun t1 t2 => by simp [parseAction, hargs, timedToolCall]⟩
    | ok pos =>
      exact ⟨by simp [parseAction, hargs, hb, ParsedAction.isErr],
             fun t1 t2 => by simp [parseAction, hargs, hb, timedToolCall]⟩

/-- Claim C6, witness: `search(query)` with the bare name `query` as a
positional argument, and `f(x=1+2)` with arithmetic as a keyword value,
each parse to an error and yield the same result under the empty
registry and the topic registry. -/
theorem nonliteral_arg_rejected_never_invoked_witness :
    ((parseAction (.call (.name "search") [.name "query"] [])).isErr = true ∧
      timedToolCall reg0 (parseAction (.call (.name "search") [.name "query"] []))
        = timedToolCall topicReg (parseAction (.call (.name "search") [.name "query"] []))) ∧
    ((parseAction (.call (.name "f") []
        [("x", .binop (.const (.pint 1)) (.const (.pint 2)))])).isErr = true ∧
      timedToolCall reg0 (parseAction (.call (.name "f") []
          [("x", .binop (.const (.pint 1)) (.const (.pint 2)))]))
        = timedToolCall topicReg (parseAction (.call (.name "f") []
          [("x", .binop (.const (.pint 1)) (.const (.pint 2)))]))) := by
  have h1 := nonliteral_arg_rejected_never_invoked "search" [.name "query"] []
    (Or.inl ⟨.name "query", List.mem_singleton.mpr rfl, rfl⟩)
  have h2 := nonliteral_arg_rejected_never_invoked "f" []
    [("x", .binop (.const (.pint 1)) (.const (.pint 2)))]
    (Or.inr ⟨("x", .binop (.const (.pint 1)) (.const (.pint 2))),
      List.mem_singleton.mpr rfl, rfl⟩)
  exact ⟨⟨h1.1, h1.2 reg0 topicReg⟩, ⟨h2.1, h2.2 reg0 topicReg⟩⟩

/-- Claim C7, counterexample: correlation cannot be "by identifier" —
the `tool_call_id`s attached to the batch's tool messages are freshly
generated by position and are identical for two batches whose actions
(and hence results) are swapped, so the identifiers carry no information
about the originating action; only the positional pairing of
`batch_results` correlates results to actions. -/
theorem tool_call_ids_uncorrelated_ce :
    (newMessages (dispatch regFG [actF, actG]) sup0).map (fun m => m.tool_call_id)
      = (newMessages (dispatch regFG [actG, actF]) sup0).map (fun m => m.tool_call_id) ∧
    dispatch regFG [actF, actG] ≠ dispatch regFG [actG, actF] := by decide

/-- Claim C7 (amended): every batch result is correlated 1:1 to its
originating action positionally — `batch_results` pairs result `i` with
the full structured action `i`, so the returned list is positionally
aligned with the input action list; the actions carry no identifiers,
and the `tool_call_id`s on the outgoing tool messages are fresh values
unrelated to the actions. -/
theorem batch_results_positionally_aligned (tools : ToolRegistry)
    (acts : List ParsedAction) :
    mkBatchResults acts (dispatch tools acts)
      = acts.map (fun a => ⟨a, statusOf (timedToolCall tools a), timedToolCall tools a⟩) ∧
    (mkBatchResults acts (dispatch tools acts)).map (fun b => b.action) = acts ∧
    (mkBatchResults acts (dispatch tools acts)).length = acts.length := by
  refine ⟨mkBatchResults_dispatch tools acts, ?_, ?_⟩
  · rw [mkBatchResults_dispatch tools acts, List.map_map]
    show List.map id acts = acts
    exact List.map_id acts
  · rw [mkBatchResults_dispatch tools acts]
    simp

/-- Claim C8, counterexample: with a 6-action batch (one more than the
claimed limit of 5), the scheduler can reach a state with all 6 tool
invocations simultaneously in flight — the code has no semaphore, so
task starts are never blocked on the number already running. -/
theorem dispatch_six_inflight_ce :
    DispatchReach (initBatch 6) ⟨0, 6, 0⟩ ∧ ¬ (6 ≤ 5) := by
  exact ⟨by simpa [initBatch] using reach_start_all 6 0 0, by decide⟩

/-- Claim C8 (amended): all actions of a batch are executed
concurrently, but the engine imposes no concurrency limit at all: for a
batch of any size `n`, a state with all `n` tool invocations
simultaneously in flight is reachable (the only bound is the runtime's
default thread pool, which is not a configured limit of 5). -/
theorem dispatch_unbounded_inflight (n : Nat) :
    DispatchReach (initBatch n) ⟨0, n, 0⟩ := by
  simpa [initBatch] using reach_start_all n 0 0

/-- Claim C9: for every URL and every fetch outcome — including a 200
response from which the extractor successfully pulls page text —
`scrape_url` returns the `final_result` dict whose `summary` is
`"Failed to scrape <url>: <message>"`; on the successful-extraction path
the extracted text is stored only in the dropped intermediate
`result["result"]` and the returned value is independent of it. -/
theorem scrape_url_always_failure_summary :
    (∀ (fetch : FetchOutcome) (extract : String → Option String) (url : String),
      scrape_url fetch extract url
        = ⟨url, (scrapeIntermediate fetch extract url).message,
            "Failed to scrape " ++ url ++ ": " ++ (scrapeIntermediate fetch extract url).message,
            "[" ++ url ++ "](" ++ url ++ ")"⟩) ∧
    (∀ (url body t t' : String),
      scrape_url (.success 200 body) (fun _ => some t) url
        = scrape_url (.success 200 body) (fun _ => some t') url) ∧
    (∀ (url body t : String),
      (scrapeIntermediate (.success 200 body) (fun _ => some t) url).result
        = if pyContains body captchaSentinel then none
          else some ⟨url, none, t, "[" ++ url ++ "](" ++ url ++ ")"⟩) := by
  refine ⟨fun f e u => rfl, fun u b t t' => ?_, fun u b t => ?_⟩
  · by_cases hcap : pyContains b captchaSentinel = true
    · simp [scrape_url, scrapeIntermediate, hcap]
    · simp [scrape_url, scrapeIntermediate, hcap]
  · by_cases hcap : pyContains b captchaSentinel = true
    · simp [scrapeIntermediate, hcap]
    · simp [scrapeIntermediate, hcap]

/-- Claim C10: `check_temps(host)` returns `None` exactly when `host` is
`"local"` (the default) — on the local path both the subprocess-success
and the exception branch only mutate the local `result` dict, which is
then dropped as the function falls off the end — while a non-`"local"`
host returns the remote-not-configured string. -/
theorem check_temps_local_returns_none :
    (∀ (host : String) (outcome : Except String String),
      check_temps host outcome = none ↔ host = "local") ∧
    (∀ s, checkTempsLocalState (.ok s) = ⟨"ok", 0, "Checked temperatures", s⟩) ∧
    (∀ e, checkTempsLocalState (.error e)
      = ⟨"error", 0, "IPMI Error (is ipmitool installed?): " ++ e, ""⟩) := by
  refine ⟨fun host outcome => ?_, fun s => rfl, fun e => rfl⟩
  unfold check_temps
  by_cases hl : host = "local"
  · simp [hl]
  · simp [hl]

end Mybot
